import Mathlib

set_option autoImplicit false
set_option maxRecDepth 8192

namespace WaColor

/- ---------------------------------------------------------------------------
String helpers mirroring the Python string operations used by the program.
--------------------------------------------------------------------------- -/

/-- Single quote character, used by the e-mail formatting code. -/
def sq : String := String.singleton (Char.ofNat 39)

/-- Newline character as a string. -/
def nl : String := String.singleton (Char.ofNat 10)

/-- Does the character list start with the given pattern? -/
def leadsWith : List Char → List Char → Bool
  | [], _ => true
  | _ :: _, [] => false
  | p :: ps, c :: cs => p == c && leadsWith ps cs

/-- Does the character list contain the pattern as a contiguous run?
Mirrors the Python `in` operator on strings. -/
def containsSeq (pat : List Char) : List Char → Bool
  | [] => leadsWith pat []
  | c :: cs => leadsWith pat (c :: cs) || containsSeq pat cs

/-- Python `pat in hay` for strings. -/
def strContains (hay pat : String) : Bool :=
  containsSeq pat.data hay.data

/-- ASCII lower-casing of one character. -/
def charLower (c : Char) : Char :=
  if 65 ≤ c.toNat ∧ c.toNat ≤ 90 then Char.ofNat (c.toNat + 32) else c

/-- Python `s.lower()` (the strings involved here are ASCII). -/
def strLower (s : String) : String :=
  String.mk (s.data.map charLower)

/-- Left-to-right, non-overlapping replacement of every occurrence of `pat`
by `rep`, mirroring Python `str.replace` (for non-empty `pat`).  The fuel
argument makes the recursion structural; one unit of fuel is spent per
consumed character, so `l.length` units always suffice. -/
def replacePatAux (pat rep : List Char) : Nat → List Char → List Char
  | 0, l => l
  | _ + 1, [] => []
  | fuel + 1, c :: cs =>
    if leadsWith pat (c :: cs) then
      rep ++ replacePatAux pat rep fuel (List.drop (pat.length - 1) cs)
    else
      c :: replacePatAux pat rep fuel cs

/-- Python `s.replace(pat, rep)` for non-empty `pat`. -/
def pyReplace (s pat rep : String) : String :=
  String.mk (replacePatAux pat.data rep.data s.data.length s.data)

/-- Python `s[-n:]`: the last `n` characters (the whole string when shorter). -/
def pyLastChars (n : Nat) (s : String) : String :=
  String.mk (s.data.drop (s.data.length - n))

/- ---------------------------------------------------------------------------
Python dictionaries with string keys and values, as association lists in
insertion order (the order Python dictionaries preserve).
--------------------------------------------------------------------------- -/

/-- A Python `dict` with string keys and string values, in insertion order. -/
abbrev Dict := List (String × String)

/-- Keys of the dictionary, in order. -/
def Dict.keys (d : Dict) : List String := d.map Prod.fst

/-- Values of the dictionary, in order. -/
def Dict.vals (d : Dict) : List String := d.map Prod.snd

/-- Python `k in d`. -/
def Dict.hasKey (d : Dict) (k : String) : Bool :=
  d.any (fun kv => kv.1 == k)

/-- Python `d.update({k: v})` / `d[k] = v`: overwrite in place when the key is
present (keeping its position), otherwise append at the end. -/
def Dict.insert (d : Dict) (k v : String) : Dict :=
  if d.hasKey k then d.map (fun kv => if kv.1 == k then (kv.1, v) else kv)
  else d ++ [(k, v)]

/-- Python `==` on dictionaries: order-insensitive equality of the key-value
pairs (for the duplicate-free key lists that model real dictionaries this is
exactly Python dictionary equality). -/
def Dict.eqDict (a b : Dict) : Bool :=
  a.all (fun kv => b.contains kv) && b.all (fun kv => a.contains kv)

/- ---------------------------------------------------------------------------
Data model: the persisted plan and cancellations snapshots
(src/wa_color/disk/private/_templates.py gives their shape).
--------------------------------------------------------------------------- -/

/-- The timetable grid: day key -> per-slot cell texts, with the `time` row
holding the slot labels. -/
structure WeekTable where
  time : List String
  monday : List String
  tuesday : List String
  wednesday : List String
  thursday : List String
  friday : List String
deriving DecidableEq, Repr

/-- `plan["metadata"]` of the persisted plan document. -/
structure PlanMetadata where
  current_iteration : Int
  current_color : String
  current_link : String
  previous_colors : Dict
  previous_links : Dict
  last_change_color : String
  last_change_table : String
  last_change_link : String
deriving DecidableEq, Repr

/-- The persisted plan document (PlanSnapshot). -/
structure PlanSnapshot where
  current : WeekTable
  previous : WeekTable
  metadata : PlanMetadata
deriving DecidableEq, Repr

/-- `cancel["metadata"]` of the persisted cancellations document. -/
structure CancelMetadata where
  current_iteration : Int
  last_change : String
deriving DecidableEq, Repr

/-- The persisted cancellations document (CancelSnapshot). -/
structure CancelSnapshot where
  current : Dict
  previous : Dict
  metadata : CancelMetadata
deriving DecidableEq, Repr

/- ---------------------------------------------------------------------------
Change checks from src/wa_color/net/scrap.py.  Each check receives the
freshly fetched fact and the current wall-clock time string (`_get_time()`),
and returns the snapshot it persists together with its boolean result.
--------------------------------------------------------------------------- -/

/-- `Plan.is_color_changed` (scrap.py:45-75): fire when the fetched color
differs from `metadata.current_color`; then record the timestamp, push the
old color into `previous_colors` unless it is the sentinel `"null"`, set the
new color, increment `current_iteration`, persist, and return `True`. -/
def is_color_changed (s : PlanSnapshot) (new_color now : String) :
    PlanSnapshot × Bool :=
  let old_color := s.metadata.current_color
  if new_color ≠ old_color then
    ({ s with
        metadata := { s.metadata with
          last_change_color := now
          current_color := new_color
          current_iteration := s.metadata.current_iteration + 1
          previous_colors :=
            if old_color ≠ "null" then
              s.metadata.previous_colors.insert now old_color
            else
              s.metadata.previous_colors } },
      true)
  else
    (s, false)

/-- `Plan.is_link_changed` (scrap.py:77-106): like the color check but for
`current_link`/`previous_links`, and it does not touch `current_iteration`. -/
def is_link_changed (s : PlanSnapshot) (new_link now : String) :
    PlanSnapshot × Bool :=
  let old_link := s.metadata.current_link
  if new_link ≠ old_link then
    ({ s with
        metadata := { s.metadata with
          current_link := new_link
          last_change_link := now
          previous_links :=
            if old_link ≠ "null" then
              s.metadata.previous_links.insert now old_link
            else
              s.metadata.previous_links } },
      true)
  else
    (s, false)

/-- `Plan.is_table_changed` (scrap.py:108-131): fire when the fetched table
differs from `current`; then move `current` to `previous`, store the fetched
table, and stamp `last_change_table`. -/
def is_table_changed (s : PlanSnapshot) (new_table : WeekTable) (now : String) :
    PlanSnapshot × Bool :=
  if new_table ≠ s.current then
    ({ s with
        current := new_table
        previous := s.current
        metadata := { s.metadata with last_change_table := now } },
      true)
  else
    (s, false)

/-- `Cancel.is_cancellations_changed` (scrap.py:164-192): fire when the
fetched map differs (Python dictionary equality) from `current`; then move
`current` to `previous`, store the fetched map, increment
`current_iteration`, and stamp `last_change`. -/
def is_cancellations_changed (s : CancelSnapshot) (new_dict : Dict) (now : String) :
    CancelSnapshot × Bool :=
  if ¬ Dict.eqDict new_dict s.current then
    ({ s with
        current := new_dict
        previous := s.current
        metadata := { s.metadata with
          current_iteration := s.metadata.current_iteration + 1
          last_change := now } },
      true)
  else
    (s, false)


/- ---------------------------------------------------------------------------
Concrete default documents from src/wa_color/disk/private/_templates.py,
in the structured form used by the change checks.
--------------------------------------------------------------------------- -/

/-- `temp_day` of `_templates.plan`: seven `"null"` cells. -/
def template_day : List String := List.replicate 7 "null"

/-- `base_week` of `_templates.plan`. -/
def template_week : WeekTable :=
  { time := ["08:00", "09:45", "11:30", "13:15", "15:00", "16:45", "18:30"]
    monday := template_day
    tuesday := template_day
    wednesday := template_day
    thursday := template_day
    friday := template_day }

/-- The default plan document of `_templates.plan`, as a `PlanSnapshot`. -/
def template_plan_snapshot : PlanSnapshot :=
  { current := template_week
    previous := template_week
    metadata :=
      { current_iteration := 0
        current_color := "null"
        current_link := "null"
        previous_colors := []
        previous_links := []
        last_change_color := "1970-01-01 00:00"
        last_change_table := "1970-01-01 00:00"
        last_change_link := "1970-01-01 00:00" } }

/- ---------------------------------------------------------------------------
Shared helper lemmas.
--------------------------------------------------------------------------- -/

/-- Python dictionary equality is reflexive. -/
lemma eqDict_refl (d : Dict) : Dict.eqDict d d = true := by
  simp only [Dict.eqDict, Bool.and_eq_true, List.all_eq_true]
  constructor <;> intro kv hkv <;>
    simpa using List.elem_eq_true_of_mem hkv

/-- Are all stored values different from the sentinel `"null"`? -/
def no_null_vals (d : Dict) : Bool :=
  d.all (fun kv => !(kv.2 == "null"))

/-- Every entry of `d.insert k v` is an entry of `d` or carries the value
`v`. -/
lemma mem_insert_cases (d : Dict) (k v : String) (kv : String × String)
    (h : kv ∈ d.insert k v) : kv ∈ d ∨ kv.2 = v := by
  unfold Dict.insert at h
  cases hcase : d.hasKey k with
  | true =>
    rw [if_pos (by rw [hcase])] at h
    obtain ⟨x, hx, hxe⟩ := List.mem_map.mp h
    by_cases hxk : x.1 == k
    · rw [if_pos hxk] at hxe
      right
      rw [← hxe]
    · rw [if_neg hxk] at hxe
      left
      rwa [hxe] at hx
  | false =>
    rw [if_neg (by rw [hcase]; exact Bool.false_ne_true)] at h
    rcases List.mem_append.mp h with h1 | h1
    · left
      exact h1
    · right
      rw [List.mem_singleton] at h1
      rw [h1]

/-- Inserting a non-sentinel value preserves sentinel-freeness. -/
lemma no_null_vals_insert (d : Dict) (k v : String)
    (hd : no_null_vals d = true) (hv : v ≠ "null") :
    no_null_vals (d.insert k v) = true := by
  simp only [no_null_vals, List.all_eq_true, Bool.not_eq_true',
    beq_eq_false_iff_ne, ne_eq] at hd ⊢
  intro kv hkv
  rcases mem_insert_cases d k v kv hkv with hm | hm
  · exact hd kv hm
  · rw [hm]
    exact hv

/- ---------------------------------------------------------------------------
C2: running any check twice on the same fetched facts is idempotent, and a
check fires exactly when the fetched value differs from the stored one.
--------------------------------------------------------------------------- -/

/-- Claim C2: for every snapshot state, running any of the four change checks
a second time with the same fetched facts as the immediately preceding run
returns `False` and leaves the snapshot unchanged; and each check reports a
change if and only if the fetched value differs (Python `!=`) from the stored
current value. -/
theorem c2_checks_idempotent (sp : PlanSnapshot) (sc : CancelSnapshot)
    (color link now now' : String) (table : WeekTable) (cdict : Dict) :
    (is_color_changed (is_color_changed sp color now).1 color now' =
      ((is_color_changed sp color now).1, false) ∧
     is_link_changed (is_link_changed sp link now).1 link now' =
      ((is_link_changed sp link now).1, false) ∧
     is_table_changed (is_table_changed sp table now).1 table now' =
      ((is_table_changed sp table now).1, false) ∧
     is_cancellations_changed (is_cancellations_changed sc cdict now).1 cdict now' =
      ((is_cancellations_changed sc cdict now).1, false)) ∧
    ((is_color_changed sp color now).2 = true ↔ color ≠ sp.metadata.current_color) ∧
    ((is_link_changed sp link now).2 = true ↔ link ≠ sp.metadata.current_link) ∧
    ((is_table_changed sp table now).2 = true ↔ table ≠ sp.current) ∧
    ((is_cancellations_changed sc cdict now).2 = true ↔
      Dict.eqDict cdict sc.current = false) := by
  refine ⟨⟨?_, ?_, ?_, ?_⟩, ?_, ?_, ?_, ?_⟩
  · by_cases h : color = sp.metadata.current_color <;>
      simp [is_color_changed, h]
  · by_cases h : link = sp.metadata.current_link <;>
      simp [is_link_changed, h]
  · by_cases h : table = sp.current <;>
      simp [is_table_changed, h]
  · by_cases h : Dict.eqDict cdict sc.current = true
    · simp [is_cancellations_changed, h]
    · simp [is_cancellations_changed, h, eqDict_refl]
  · by_cases h : color = sp.metadata.current_color <;>
      simp [is_color_changed, h]
  · by_cases h : link = sp.metadata.current_link <;>
      simp [is_link_changed, h]
  · by_cases h : table = sp.current <;>
      simp [is_table_changed, h]
  · by_cases h : Dict.eqDict cdict sc.current = true <;>
      simp [is_cancellations_changed, h]

/- ---------------------------------------------------------------------------
C3: the link check only touches the three link fields and in particular
does not increment the iteration counter.
--------------------------------------------------------------------------- -/

/-- Claim C3: for every snapshot and every fetched link different from
`metadata.current_link`, the link check fires and updates exactly
`current_link`, `last_change_link` and `previous_links` (appending the old
link unless it is the sentinel), leaving every other field — in particular
`current_iteration` — unchanged. -/
theorem c3_link_change_frame (s : PlanSnapshot) (new_link now : String)
    (h : new_link ≠ s.metadata.current_link) :
    (is_link_changed s new_link now).2 = true ∧
    (is_link_changed s new_link now).1.current = s.current ∧
    (is_link_changed s new_link now).1.previous = s.previous ∧
    (is_link_changed s new_link now).1.metadata.current_iteration =
      s.metadata.current_iteration ∧
    (is_link_changed s new_link now).1.metadata.current_color =
      s.metadata.current_color ∧
    (is_link_changed s new_link now).1.metadata.previous_colors =
      s.metadata.previous_colors ∧
    (is_link_changed s new_link now).1.metadata.last_change_color =
      s.metadata.last_change_color ∧
    (is_link_changed s new_link now).1.metadata.last_change_table =
      s.metadata.last_change_table ∧
    (is_link_changed s new_link now).1.metadata.current_link = new_link ∧
    (is_link_changed s new_link now).1.metadata.last_change_link = now ∧
    (is_link_changed s new_link now).1.metadata.previous_links =
      (if s.metadata.current_link ≠ "null" then
        s.metadata.previous_links.insert now s.metadata.current_link
      else s.metadata.previous_links) := by
  simp [is_link_changed, h]

/-- Witness for C3 at a concrete snapshot and link. -/
theorem c3_link_change_frame_witness :
    (is_link_changed template_plan_snapshot "https://x.example/o1.html"
      "2024-01-01 00:00:00").2 = true ∧
    (is_link_changed template_plan_snapshot "https://x.example/o1.html"
      "2024-01-01 00:00:00").1.metadata.current_iteration =
      template_plan_snapshot.metadata.current_iteration :=
  ⟨(c3_link_change_frame template_plan_snapshot "https://x.example/o1.html"
      "2024-01-01 00:00:00" (by decide)).1,
   (c3_link_change_frame template_plan_snapshot "https://x.example/o1.html"
      "2024-01-01 00:00:00" (by decide)).2.2.2.1⟩

/- ---------------------------------------------------------------------------
C8: the sentinel "null" is never written into a history map.
--------------------------------------------------------------------------- -/

/-- Claim C8: if neither history map of a snapshot contains the sentinel
`"null"` as a value, this remains true after any color-change or link-change
check: the sentinel is never written into a history map. -/
theorem c8_sentinel_not_in_history (s : PlanSnapshot) (v now : String)
    (hc : no_null_vals s.metadata.previous_colors = true)
    (hl : no_null_vals s.metadata.previous_links = true) :
    (no_null_vals (is_color_changed s v now).1.metadata.previous_colors = true ∧
     no_null_vals (is_color_changed s v now).1.metadata.previous_links = true) ∧
    (no_null_vals (is_link_changed s v now).1.metadata.previous_colors = true ∧
     no_null_vals (is_link_changed s v now).1.metadata.previous_links = true) := by
  refine ⟨⟨?_, ?_⟩, ⟨?_, ?_⟩⟩
  · by_cases h : v = s.metadata.current_color
    · simpa [is_color_changed, h] using hc
    · by_cases hn : s.metadata.current_color = "null"
      · have hv : ¬ v = "null" := fun e => h (by rw [e, hn])
        simpa [is_color_changed, h, hn, hv] using hc
      · simpa [is_color_changed, h, hn] using
          no_null_vals_insert s.metadata.previous_colors now
            s.metadata.current_color hc hn
  · by_cases h : v = s.metadata.current_color
    · simpa [is_color_changed, h] using hl
    · by_cases hn : s.metadata.current_color = "null"
      · have hv : ¬ v = "null" := fun e => h (by rw [e, hn])
        simpa [is_color_changed, h, hn, hv] using hl
      · simpa [is_color_changed, h, hn] using hl
  · by_cases h : v = s.metadata.current_link
    · simpa [is_link_changed, h] using hc
    · by_cases hn : s.metadata.current_link = "null"
      · have hv : ¬ v = "null" := fun e => h (by rw [e, hn])
        simpa [is_link_changed, h, hn, hv] using hc
      · simpa [is_link_changed, h, hn] using hc
  · by_cases h : v = s.metadata.current_link
    · simpa [is_link_changed, h] using hl
    · by_cases hn : s.metadata.current_link = "null"
      · have hv : ¬ v = "null" := fun e => h (by rw [e, hn])
        simpa [is_link_changed, h, hn, hv] using hl
      · simpa [is_link_changed, h, hn] using
          no_null_vals_insert s.metadata.previous_links now
            s.metadata.current_link hl hn

/-- Witness for C8 at a concrete snapshot. -/
theorem c8_sentinel_not_in_history_witness :
    no_null_vals (is_color_changed template_plan_snapshot "AABBCC"
      "2024-01-01 00:00:00").1.metadata.previous_colors = true :=
  (c8_sentinel_not_in_history template_plan_snapshot "AABBCC"
    "2024-01-01 00:00:00" (by decide) (by decide)).1.1

/- ---------------------------------------------------------------------------
C1: N distinct colors across N polls.
--------------------------------------------------------------------------- -/

/-- One call of the color-change check per poll: fold `is_color_changed`
over the fetched (color, timestamp) pairs. -/
def run_color_polls (s : PlanSnapshot) : List (String × String) → PlanSnapshot
  | [] => s
  | (c, t) :: rest => run_color_polls (is_color_changed s c t).1 rest

/-- `hasKey` distributes over dictionary concatenation. -/
lemma hasKey_append (a b : Dict) (k : String) :
    Dict.hasKey (a ++ b) k = (Dict.hasKey a k || Dict.hasKey b k) := by
  simp [Dict.hasKey, List.any_append]

/-- A fired color check with a non-sentinel old color and a fresh timestamp:
the new color is stored, the iteration counter steps, and the old color is
appended to the history. -/
lemma color_step_fired (s : PlanSnapshot) (c t : String)
    (h : c ≠ s.metadata.current_color) (hn : s.metadata.current_color ≠ "null")
    (hf : s.metadata.previous_colors.hasKey t = false) :
    (is_color_changed s c t).1.metadata.current_color = c ∧
    (is_color_changed s c t).1.metadata.current_iteration =
      s.metadata.current_iteration + 1 ∧
    (is_color_changed s c t).1.metadata.previous_colors =
      s.metadata.previous_colors ++ [(t, s.metadata.current_color)] := by
  simp [is_color_changed, h, hn, Dict.insert, hf]

/-- Feeding a chain of colors (each differing from the one before it, none
the sentinel) with fresh pairwise-distinct timestamps to a snapshot whose
stored color is not the sentinel grows the history and the iteration counter
by one per poll. -/
lemma run_color_polls_chain (steps : List (String × String)) :
    ∀ s : PlanSnapshot,
    (s.metadata.current_color :: steps.map Prod.fst).Nodup →
    s.metadata.current_color ≠ "null" →
    (∀ c ∈ steps.map Prod.fst, c ≠ "null") →
    (steps.map Prod.snd).Nodup →
    (∀ t ∈ steps.map Prod.snd, s.metadata.previous_colors.hasKey t = false) →
    (run_color_polls s steps).metadata.previous_colors.length =
      s.metadata.previous_colors.length + steps.length ∧
    (run_color_polls s steps).metadata.current_iteration =
      s.metadata.current_iteration + steps.length := by
  induction steps with
  | nil =>
    intro s _ _ _ _ _
    simp [run_color_polls]
  | cons p rest ih =>
    obtain ⟨c, t⟩ := p
    intro s hnod hcur hnn hts hfresh
    have hcne : c ≠ s.metadata.current_color := by
      have h1 : s.metadata.current_color ∉ (c :: rest.map Prod.fst) :=
        (List.nodup_cons.mp (by simpa using hnod)).1
      intro he
      exact h1 (by simp [he])
    have hcnull : c ≠ "null" := hnn c (by simp)
    have hts2 : (t :: List.map Prod.snd rest).Nodup := by
      simpa using hts
    have hthead : t ∉ List.map Prod.snd rest := (List.nodup_cons.mp hts2).1
    have httail : (List.map Prod.snd rest).Nodup := (List.nodup_cons.mp hts2).2
    have hfire := color_step_fired s c t hcne hcur (hfresh t (by simp))
    have hrest := ih (is_color_changed s c t).1 ?_ ?_ ?_ ?_ ?_
    · rw [show run_color_polls s ((c, t) :: rest) =
          run_color_polls (is_color_changed s c t).1 rest from rfl]
      refine ⟨?_, ?_⟩
      · have e1 := hrest.1
        rw [hfire.2.2] at e1
        simp only [List.length_append, List.length_cons, List.length_nil] at e1 ⊢
        omega
      · have e2 := hrest.2
        rw [hfire.2.1] at e2
        rw [e2]
        simp only [List.length_cons]
        push_cast
        ring
    · rw [hfire.1]
      exact (List.nodup_cons.mp (by simpa using hnod)).2
    · rw [hfire.1]
      exact hcnull
    · intro x hx
      exact hnn x (by simp only [List.map_cons, List.mem_cons]; right; exact hx)
    · exact httail
    · intro u hu
      rw [hfire.2.2, hasKey_append]
      have h1 : s.metadata.previous_colors.hasKey u = false :=
        hfresh u (by simp only [List.map_cons, List.mem_cons]; right; exact hu)
      have h2 : t ≠ u := by
        intro he
        exact hthead (by rw [he]; exact hu)
      rw [h1]
      simp [Dict.hasKey, h2]

/-- Claim C1, counterexample: with N = 1 (one poll, one non-sentinel color,
sentinel start, empty history), `previous_colors` indeed ends with
N - 1 = 0 entries, but `current_iteration` increases by 1, not by
N - 1 = 0 — the first transition from the sentinel also increments the
counter. -/
theorem c1_counterexample :
    template_plan_snapshot.metadata.current_color = "null" ∧
    template_plan_snapshot.metadata.previous_colors = [] ∧
    ("AABBCC" : String) ≠ "null" ∧
    (run_color_polls template_plan_snapshot
      [("AABBCC", "2024-01-01 00:00:00")]).metadata.previous_colors.length = 0 ∧
    (run_color_polls template_plan_snapshot
      [("AABBCC", "2024-01-01 00:00:00")]).metadata.current_iteration =
      template_plan_snapshot.metadata.current_iteration + 1 ∧
    template_plan_snapshot.metadata.current_iteration + 1 ≠
      template_plan_snapshot.metadata.current_iteration + (1 - 1 : Int) := by
  refine ⟨rfl, rfl, by decide, ?_, ?_, by decide⟩
  · rfl
  · rfl

/-- Claim C1, amended: starting from a snapshot whose color is the sentinel
`"null"` and whose color history is empty, feeding N pairwise-distinct
non-sentinel colors across N polls (distinct timestamps) leaves
`previous_colors` with exactly N - 1 entries and increases
`current_iteration` by exactly N (the first transition from the sentinel is
not recorded in the history but does increment the counter). -/
theorem c1_color_polls_amended (s : PlanSnapshot) (steps : List (String × String))
    (hcol : s.metadata.current_color = "null")
    (hhist : s.metadata.previous_colors = [])
    (hne : steps ≠ [])
    (hnodc : (steps.map Prod.fst).Nodup)
    (hnn : ∀ c ∈ steps.map Prod.fst, c ≠ "null")
    (hnodt : (steps.map Prod.snd).Nodup) :
    (run_color_polls s steps).metadata.previous_colors.length =
      steps.length - 1 ∧
    (run_color_polls s steps).metadata.current_iteration =
      s.metadata.current_iteration + steps.length := by
  match steps, hne with
  | (c, t) :: rest, _ =>
    have hcnull : c ≠ "null" := hnn c (by simp)
    have hcne : c ≠ s.metadata.current_color := by
      rw [hcol]
      exact hcnull
    have hfire1 : (is_color_changed s c t).1.metadata.current_color = c := by
      simp [is_color_changed, hcne]
    have hfire2 : (is_color_changed s c t).1.metadata.current_iteration =
        s.metadata.current_iteration + 1 := by
      simp [is_color_changed, hcne]
    have hfire3 : (is_color_changed s c t).1.metadata.previous_colors = [] := by
      simp [is_color_changed, hcne, hcol, hhist, hcnull]
    have hchain := run_color_polls_chain rest (is_color_changed s c t).1 ?_ ?_ ?_ ?_ ?_
    · rw [show run_color_polls s ((c, t) :: rest) =
          run_color_polls (is_color_changed s c t).1 rest from rfl]
      refine ⟨?_, ?_⟩
      · rw [hchain.1, hfire3]
        simp
      · rw [hchain.2, hfire2]
        simp only [List.length_cons]
        push_cast
        ring
    · rw [hfire1]
      simpa using hnodc
    · rw [hfire1]
      exact hcnull
    · intro x hx
      exact hnn x (by simp only [List.map_cons, List.mem_cons]; right; exact hx)
    · exact (List.nodup_cons.mp (by simpa using hnodt)).2
    · intro u _
      rw [hfire3]
      rfl

/-- Witness for the amended C1 at a concrete snapshot and two polls. -/
theorem c1_color_polls_amended_witness :
    (run_color_polls template_plan_snapshot
      [("AABBCC", "2024-01-01 00:00:01"),
       ("DDEEFF", "2024-01-01 00:00:02")]).metadata.previous_colors.length = 1 ∧
    (run_color_polls template_plan_snapshot
      [("AABBCC", "2024-01-01 00:00:01"),
       ("DDEEFF", "2024-01-01 00:00:02")]).metadata.current_iteration =
      template_plan_snapshot.metadata.current_iteration + 2 :=
  c1_color_polls_amended template_plan_snapshot
    [("AABBCC", "2024-01-01 00:00:01"), ("DDEEFF", "2024-01-01 00:00:02")]
    rfl rfl (by decide) (by decide) (by decide) (by decide)

/- ---------------------------------------------------------------------------
C5: user-agent plausibility check
(src/wa_color/net/private/_download.py, _Shared.get_user_agent).
--------------------------------------------------------------------------- -/

/-- The hardcoded default Chrome user agent (`default_agent`). -/
def default_user_agent : String :=
  "Mozilla/5.0 (Windows NT 10.0; Win64; x64) AppleWebKit/537.36 (KHTML, like Gecko) Chrome/105.0.0.0 Safari/537.36"

/-- The validation applied to a freshly scraped user agent
(_download.py:71-96): reject (fall back to the default) when the candidate
is shorter than 5 characters, or does not contain `"mozilla"`, or does not
contain `"chrome"` (both case-insensitively); otherwise accept it.  The
raised exceptions are caught by the enclosing handler, which caches and
returns the default agent. -/
def validate_scraped_agent (scraped : String) : String :=
  if scraped.length < 5 then default_user_agent
  else if strContains (strLower scraped) "mozilla" = false then default_user_agent
  else if strContains (strLower scraped) "chrome" = false then default_user_agent
  else scraped

/-- Implausibility as the claim words it: shorter than 5 characters, or
missing BOTH the `"mozilla"` and the `"chrome"` token. -/
def spec_implausible_agent (s : String) : Bool :=
  decide (s.length < 5) ||
    (!strContains (strLower s) "mozilla" && !strContains (strLower s) "chrome")

/-- Plausibility as the code actually implements it: at least 5 characters
and containing both tokens, case-insensitively. -/
def amended_plausible_agent (s : String) : Bool :=
  decide (5 ≤ s.length) && strContains (strLower s) "mozilla" &&
    strContains (strLower s) "chrome"

/-- Claim C5, counterexample: the candidate `"xchromex"` has length at
least 5 and contains the `"chrome"` token, so it is not implausible in the
claim sense, yet the code falls back to the hardcoded default. -/
theorem c5_counterexample :
    spec_implausible_agent "xchromex" = false ∧
    validate_scraped_agent "xchromex" = default_user_agent ∧
    "xchromex" ≠ default_user_agent := by
  refine ⟨by decide, by decide, by decide⟩

/-- Claim C5, amended: the lookup falls back to the hardcoded default
exactly when the candidate is shorter than 5 characters or misses EITHER
the `"mozilla"` or the `"chrome"` token (case-insensitive); a candidate of
length at least 5 containing both tokens is accepted. -/
theorem c5_agent_fallback_amended (s : String) :
    (amended_plausible_agent s = true → validate_scraped_agent s = s) ∧
    (amended_plausible_agent s = false →
      validate_scraped_agent s = default_user_agent) := by
  constructor
  · intro h
    simp only [amended_plausible_agent, Bool.and_eq_true, decide_eq_true_eq] at h
    obtain ⟨⟨h1, h2⟩, h3⟩ := h
    unfold validate_scraped_agent
    rw [if_neg (by omega), if_neg (by simp [h2]), if_neg (by simp [h3])]
  · intro h
    by_cases hl : s.length < 5
    · simp [validate_scraped_agent, hl]
    · have h5 : 5 ≤ s.length := Nat.not_lt.mp hl
      by_cases hm : strContains (strLower s) "mozilla"
      · have hc : strContains (strLower s) "chrome" = false := by
          simpa [amended_plausible_agent, h5, hm] using h
        simp [validate_scraped_agent, hl, hm, hc]
      · have hmf : strContains (strLower s) "mozilla" = false := by
          simpa using hm
        simp [validate_scraped_agent, hl, hmf]

/-- Witness for the amended C5: one accepted and one rejected candidate. -/
theorem c5_agent_fallback_amended_witness :
    validate_scraped_agent "Mozilla/5.0 Chrome/999" = "Mozilla/5.0 Chrome/999" ∧
    validate_scraped_agent "zzzzz" = default_user_agent :=
  ⟨(c5_agent_fallback_amended "Mozilla/5.0 Chrome/999").1 (by decide),
   (c5_agent_fallback_amended "zzzzz").2 (by decide)⟩

/- ---------------------------------------------------------------------------
C6: link resolution
(src/wa_color/net/private/_download.py, _Shared.combine_base_link_and_href).
--------------------------------------------------------------------------- -/

/-- Does `s` end with `pat`? -/
def strEndsWith (s pat : String) : Bool :=
  leadsWith pat.data.reverse s.data.reverse

/-- Remove every left-to-right non-overlapping occurrence of `pat`
(fuel-based, like `replacePatAux` with an empty replacement). -/
def removeSeqAux (pat : List Char) : Nat → List Char → List Char
  | 0, l => l
  | _ + 1, [] => []
  | fuel + 1, c :: cs =>
    if leadsWith pat (c :: cs) then
      removeSeqAux pat fuel (List.drop (pat.length - 1) cs)
    else
      c :: removeSeqAux pat fuel cs

/-- Remove every occurrence of `pat` from `s`. -/
def removeEvery (s pat : String) : String :=
  String.mk (removeSeqAux pat.data s.data.length s.data)

/-- Replacing with the empty string is the same as removing. -/
lemma replacePatAux_nil_rep (pat : List Char) :
    ∀ (fuel : Nat) (l : List Char),
    replacePatAux pat [] fuel l = removeSeqAux pat fuel l := by
  intro fuel
  induction fuel with
  | zero =>
    intro l
    rfl
  | succ n ih =>
    intro l
    cases l with
    | nil => rfl
    | cons c cs =>
      by_cases h : leadsWith pat (c :: cs) <;>
        simp [replacePatAux, removeSeqAux, h, ih]

/-- Python `str.replace` with an empty replacement removes occurrences. -/
lemma pyReplace_empty (s pat : String) :
    pyReplace s pat "" = removeEvery s pat := by
  unfold pyReplace removeEvery
  rw [show ("" : String).data = [] from rfl, replacePatAux_nil_rep]

/-- The tail of `combine_base_link_and_href` once the base has been
processed: inspect the base's last character (`first[-1]`, `IndexError` on
an empty base), append a slash when it is not one, drop one leading slash
from the href (`second[0]`, `IndexError` on an empty href), concatenate. -/
def combineTail (base second : String) : Option String :=
  match base.data.getLast? with
  | none => none
  | some lastc =>
    match second.data with
    | [] => none
    | c :: cs =>
      some ((if lastc ≠ '/' then base ++ "/" else base) ++
        (if c = '/' then String.mk cs else second))

/-- `_Shared.combine_base_link_and_href` (_download.py:100-127): remove
`"/index.html"` (Python `str.replace`, i.e. every occurrence) when it occurs
in the base's last 15 characters, then `combineTail`. -/
def combine_base_link_and_href (first second : String) : Option String :=
  combineTail
    (if strContains (pyLastChars 15 first) "/index.html" then
      pyReplace first "/index.html" ""
    else first)
    second

/-- The link-resolution algorithm exactly as the claim words it: strip one
TRAILING `"/index.html"` from the base when `"/index.html"` occurs in the
base's last 15 characters, ensure EXACTLY ONE trailing slash, strip one
leading slash from the href, then concatenate. -/
def claim_combine_spec (first second : String) : String :=
  let base :=
    if strContains (pyLastChars 15 first) "/index.html" &&
        strEndsWith first "/index.html" then
      String.mk (first.data.take (first.data.length - 11))
    else first
  let base1 :=
    String.mk (base.data.reverse.dropWhile (fun c => c == '/')).reverse ++ "/"
  let href :=
    if leadsWith ['/'] second.data then String.mk second.data.tail else second
  base1 ++ href

/-- Claim C6, counterexample: the code does not follow the claimed
algorithm.  (1) `str.replace` removes EVERY `"/index.html"`, not only a
trailing one: on base `"https://site.com/index.html/index.html"` the code
yields `"https://site.com/x.html"` while the claimed algorithm yields
`"https://site.com/index.html/x.html"`.  (2) The code only appends a slash
when one is missing and never collapses an existing double slash: on base
`"https://a//"` the code yields `"https://a//b"` while an
exactly-one-trailing-slash rule would give `"https://a/b"`. -/
theorem c6_counterexample :
    combine_base_link_and_href "https://site.com/index.html/index.html"
      "x.html" = some "https://site.com/x.html" ∧
    claim_combine_spec "https://site.com/index.html/index.html" "x.html" =
      "https://site.com/index.html/x.html" ∧
    ("https://site.com/x.html" : String) ≠
      "https://site.com/index.html/x.html" ∧
    combine_base_link_and_href "https://a//" "b" = some "https://a//b" ∧
    claim_combine_spec "https://a//" "b" = "https://a/b" ∧
    ("https://a//b" : String) ≠ "https://a/b" := by
  refine ⟨by decide, by decide, by decide, by decide, by decide, by decide⟩

/-- The tail of the amended algorithm: error on an empty base or empty href,
append a slash only when the base does not already end in one, strip at most
one leading slash from the href, concatenate. -/
def amendedTail (base second : String) : Option String :=
  if base.data = [] ∨ second.data = [] then none
  else
    some ((if strEndsWith base "/" then base else base ++ "/") ++
      (if leadsWith ['/'] second.data then String.mk second.data.tail
       else second))

/-- The amended link-resolution algorithm, following the code: when
`"/index.html"` occurs in the base's last 15 characters, remove every
occurrence of `"/index.html"` from the base; append a trailing slash only
when the base does not already end in one (an existing slash run is kept);
strip at most one leading slash from the href; concatenate.  An empty base
after removal, or an empty href, is an error. -/
def amended_combine_spec (first second : String) : Option String :=
  amendedTail
    (if strContains (pyLastChars 15 first) "/index.html" then
      removeEvery first "/index.html"
    else first)
    second

/-- A nonempty string ends in a slash exactly when its last character is a
slash. -/
lemma strEndsWith_slash (base : String) (lastc : Char)
    (h : base.data.getLast? = some lastc) :
    (strEndsWith base "/" = true) ↔ lastc = '/' := by
  unfold strEndsWith
  cases hr : base.data.reverse with
  | nil =>
    rw [List.reverse_eq_nil_iff] at hr
    rw [hr] at h
    simp at h
  | cons x xs =>
    have hx : x = lastc := by
      have h2 := base.data.head?_reverse
      rw [hr, h] at h2
      simpa using h2
    subst hx
    show (('/' == x) && leadsWith [] xs) = true ↔ x = '/'
    rw [show leadsWith [] xs = true from rfl, Bool.and_true, beq_iff_eq]
    exact eq_comm

/-- The two tails agree on every input. -/
lemma combineTail_eq_amendedTail (base second : String) :
    combineTail base second = amendedTail base second := by
  unfold combineTail amendedTail
  cases hg : base.data.getLast? with
  | none =>
    rw [List.getLast?_eq_none_iff] at hg
    rw [if_pos (Or.inl hg)]
  | some lastc =>
    have hne : base.data ≠ [] := by
      intro he
      rw [he] at hg
      simp at hg
    cases hs : second.data with
    | nil =>
      rw [if_pos (Or.inr rfl)]
    | cons c cs =>
      have hor : ¬(base.data = [] ∨ c :: cs = []) := by
        rintro (h1 | h2)
        · exact hne h1
        · exact List.cons_ne_nil c cs h2
      rw [if_neg hor]
      show some ((if lastc ≠ '/' then base ++ "/" else base) ++
          (if c = '/' then String.mk cs else second)) =
        some ((if strEndsWith base "/" then base else base ++ "/") ++
          (if leadsWith ['/'] (c :: cs) then String.mk (c :: cs).tail
           else second))
      have e1 : (if lastc ≠ '/' then base ++ "/" else base) =
          (if strEndsWith base "/" then base else base ++ "/") := by
        by_cases hsl : lastc = '/'
        · rw [if_neg (by simp [hsl]),
            if_pos ((strEndsWith_slash base lastc hg).mpr hsl)]
        · rw [if_pos hsl,
            if_neg (fun hw => hsl ((strEndsWith_slash base lastc hg).mp hw))]
      have e2 : (if c = '/' then String.mk cs else second) =
          (if leadsWith ['/'] (c :: cs) then String.mk (c :: cs).tail
           else second) := by
        by_cases hc2 : c = '/'
        · rw [if_pos hc2, if_pos (by simp [leadsWith, hc2])]
          rfl
        · rw [if_neg hc2, if_neg (by
            simp only [leadsWith, Bool.and_eq_true, beq_iff_eq]
            rintro ⟨he, -⟩
            exact hc2 he.symm)]
      rw [e1, e2]

/-- Claim C6, amended: the code's link resolution agrees everywhere with the
amended algorithm, and the two concrete examples of the claim hold. -/
theorem c6_combine_follows_amended :
    (∀ first second : String,
      combine_base_link_and_href first second =
        amended_combine_spec first second) ∧
    combine_base_link_and_href "https://site.com/index.html" "/x.html" =
      some "https://site.com/x.html" ∧
    combine_base_link_and_href "https://site.com" "x.html" =
      some "https://site.com/x.html" := by
  refine ⟨?_, by decide, by decide⟩
  intro first second
  unfold combine_base_link_and_href amended_combine_spec
  rw [pyReplace_empty, combineTail_eq_amendedTail]

/- ---------------------------------------------------------------------------
C10: the per-recipient send loop appends the footer to the shared message
string once per iteration (mail.py:92-103 and mail_api.py:77-88).
--------------------------------------------------------------------------- -/

/-- The bodies produced by the send loop: for each receiver, the shared
`message` accumulator first gets the footer appended (`message += footer`),
then the e-mail to that receiver is built from the accumulator. -/
def send_mail_bodies : String → String → List String → List (String × String)
  | _, _, [] => []
  | message, footer, target :: rest =>
    (target, message ++ footer) :: send_mail_bodies (message ++ footer) footer rest

/-- The footer concatenated `n` times. -/
def footer_times : Nat → String → String
  | 0, _ => ""
  | n + 1, f => footer_times n f ++ f

/-- The empty string is a left identity for append. -/
lemma str_empty_append (s : String) : "" ++ s = s := by
  cases s
  rfl

/-- The empty string is a right identity for append. -/
lemma str_append_empty (s : String) : s ++ "" = s := by
  cases s with
  | mk l =>
    show String.mk (l ++ []) = String.mk l
    rw [List.append_nil]

/-- String append is associative. -/
lemma str_append_assoc (a b c : String) : a ++ b ++ c = a ++ (b ++ c) := by
  cases a with
  | mk la =>
    cases b with
    | mk lb =>
      cases c with
      | mk lc =>
        show String.mk (la ++ lb ++ lc) = String.mk (la ++ (lb ++ lc))
        rw [List.append_assoc]

/-- The repeated footer can also be peeled off at the front. -/
lemma footer_times_succ_left (n : Nat) (f : String) :
    footer_times (n + 1) f = f ++ footer_times n f := by
  induction n with
  | zero =>
    show "" ++ f = f ++ ""
    rw [str_empty_append, str_append_empty]
  | succ m ih =>
    show footer_times (m + 1) f ++ f = f ++ (footer_times m f ++ f)
    rw [ih, str_append_assoc]

/-- Length of the repeated footer. -/
lemma footer_times_length (n : Nat) (f : String) :
    (footer_times n f).length = n * f.length := by
  induction n with
  | zero =>
    show ("" : String).length = 0 * f.length
    rw [Nat.zero_mul]
    rfl
  | succ m ih =>
    show (footer_times m f ++ f).length = (m + 1) * f.length
    rw [String.length_append, ih]
    ring

/-- Entry `i` of the send-loop output. -/
lemma send_mail_bodies_getD (receivers : List String) :
    ∀ (message footer : String) (i : Nat), i < receivers.length →
    (send_mail_bodies message footer receivers).getD i ("", "") =
      (receivers.getD i "", message ++ footer_times (i + 1) footer) := by
  induction receivers with
  | nil =>
    intro _ _ i hi
    simp at hi
  | cons r rs ih =>
    intro message footer i hi
    cases i with
    | zero =>
      show (r, message ++ footer) = (r, message ++ footer_times 1 footer)
      rw [show footer_times 1 footer = "" ++ footer from rfl, str_empty_append]
    | succ n =>
      have hn : n < rs.length := by simpa using hi
      show (send_mail_bodies (message ++ footer) footer rs).getD n ("", "") =
        (rs.getD n "", message ++ footer_times (n + 2) footer)
      rw [ih (message ++ footer) footer n hn, str_append_assoc,
        ← footer_times_succ_left]

/-- Nonempty strings have nonzero length. -/
lemma str_ne_empty_length (f : String) (h : f ≠ "") : f.length ≠ 0 := by
  intro hl
  apply h
  cases f with
  | mk l =>
    cases l with
    | nil => rfl
    | cons c cs => simp [String.length] at hl

/-- Claim C10: in the per-recipient send loop the footer is concatenated
onto the shared message once per iteration, so the body delivered to the
i-th recipient (1-based: index `i` here is 0-based) carries the footer
appended `i + 1` times, and (for a nonempty footer) only the first
recipient receives the body with a single footer. -/
theorem c10_footer_accumulates (message footer : String)
    (receivers : List String) (i : Nat) (hi : i < receivers.length) :
    (send_mail_bodies message footer receivers).getD i ("", "") =
      (receivers.getD i "", message ++ footer_times (i + 1) footer) ∧
    (footer ≠ "" →
      (message ++ footer_times (i + 1) footer = message ++ footer ↔ i = 0)) := by
  refine ⟨send_mail_bodies_getD receivers message footer i hi, ?_⟩
  intro hf
  constructor
  · intro he
    have hlen := congrArg String.length he
    rw [String.length_append, String.length_append, footer_times_length] at hlen
    have hfl := str_ne_empty_length footer hf
    have : (i + 1) * footer.length = footer.length := by omega
    have hi0 : i * footer.length = 0 := by
      have := this
      nlinarith [this]
    rcases Nat.mul_eq_zero.mp hi0 with h0 | h0
    · exact h0
    · exact absurd h0 hfl
  · intro h0
    rw [h0]
    rw [show footer_times 1 footer = "" ++ footer from rfl, str_empty_append]

/-- Witness for C10: with two recipients, the second body carries the footer
twice. -/
theorem c10_footer_accumulates_witness :
    (send_mail_bodies "msg" "[f]" ["a@x", "b@x"]).getD 1 ("", "") =
      ("b@x", "msg" ++ footer_times 2 "[f]") :=
  (c10_footer_accumulates "msg" "[f]" ["a@x", "b@x"] 1 (by decide)).1

/- ---------------------------------------------------------------------------
C9: a cancellations change with no new keys fires the check but produces no
e-mail (mail.py:247-299, Mail.send_cancel_email).
--------------------------------------------------------------------------- -/

/-- Python tuple comparison on (key, value) pairs, used by
`sorted(d.items(), key=lambda x: x)`. -/
def pair_le (a b : String × String) : Bool :=
  decide (a.1 < b.1) || (a.1 == b.1 && decide (a.2 ≤ b.2))

/-- Insert into a list kept sorted in descending pair order. -/
def insert_desc (p : String × String) :
    List (String × String) → List (String × String)
  | [] => [p]
  | q :: qs => if pair_le q p then p :: q :: qs else q :: insert_desc p qs

/-- Python `dict(sorted(d.items(), key=lambda x: x, reverse=True))`:
the entries in descending order. -/
def sort_desc (l : List (String × String)) : List (String × String) :=
  l.foldr insert_desc []

/-- mail.py:270: the entries of the fetched map whose key is absent from the
old map (`{k: new_cancel[k] for k in set(new_cancel) - set(old_cancel)}`). -/
def cancel_new_entries (old_cancel new_cancel : Dict) : Dict :=
  new_cancel.filter (fun kv => !(Dict.hasKey old_cancel kv.1))

/-- Python `enumerate(l, start=1)`. -/
def enum1 (l : List (String × String)) : List (Nat × String × String) :=
  l.enum.map (fun p => (p.1 + 1, p.2))

/-- One `* [num] key - 'value'` line of the cancellations e-mail. -/
def cancel_email_line (e : Nat × String × String) : String :=
  nl ++ "* [" ++ toString e.1 ++ "] " ++ e.2.1 ++ " - " ++ sq ++ e.2.2 ++ sq

/-- Subject of the cancellations e-mail. -/
def cancel_email_subject (s : CancelSnapshot) : String :=
  "wa_color: class cancellations have changed (" ++
    toString s.metadata.current_iteration ++ ")"

/-- Body of the cancellations e-mail: header, new entries (descending),
link, full current list (descending), divider. -/
def cancel_email_body (s : CancelSnapshot) (cancel_url : String) : String :=
  "class cancellation have changed at " ++ sq ++ s.metadata.last_change ++ sq ++
    " (iteration: " ++ toString s.metadata.current_iteration ++ ")" ++
    nl ++ nl ++ "new entries only:" ++
    String.join ((enum1 (sort_desc (cancel_new_entries (sort_desc s.previous)
      (sort_desc s.current)))).map cancel_email_line) ++
    nl ++ nl ++ "you can view them here: " ++ cancel_url ++
    nl ++ nl ++ "full class cancellations history:" ++
    String.join ((enum1 (sort_desc s.current)).map cancel_email_line) ++
    nl ++ nl ++ "---" ++ nl ++ nl

/-- `Mail.send_cancel_email` (mail.py:247-299) up to the SMTP transport:
`none` means the difference of keys was empty, so the method logs, sends
nothing and returns `False`; `some (subject, body)` is the request handed to
`send_mail_api` otherwise. -/
def send_cancel_email_request (s : CancelSnapshot) (cancel_url : String) :
    Option (String × String) :=
  if sort_desc (cancel_new_entries (sort_desc s.previous)
      (sort_desc s.current)) = [] then
    none
  else
    some (cancel_email_subject s, cancel_email_body s cancel_url)

/-- Membership is preserved by `insert_desc`. -/
lemma mem_insert_desc (p q : String × String) (l : List (String × String)) :
    q ∈ insert_desc p l ↔ q = p ∨ q ∈ l := by
  induction l with
  | nil => simp [insert_desc]
  | cons r rs ih =>
    by_cases h : pair_le r p
    · simp [insert_desc, h]
    · simp [insert_desc, h, ih]
      tauto

/-- Membership is preserved by sorting. -/
lemma mem_sort_desc (q : String × String) (l : List (String × String)) :
    q ∈ sort_desc l ↔ q ∈ l := by
  induction l with
  | nil => simp [sort_desc]
  | cons x xs ih =>
    show q ∈ insert_desc x (xs.foldr insert_desc []) ↔ _
    rw [mem_insert_desc]
    show q = x ∨ q ∈ sort_desc xs ↔ _
    rw [ih]
    exact (List.mem_cons).symm

/-- `hasKey` agrees with membership in the key list. -/
lemma hasKey_iff (d : Dict) (k : String) :
    Dict.hasKey d k = true ↔ k ∈ Dict.keys d := by
  simp [Dict.hasKey, Dict.keys, List.any_eq_true]

/-- Sorting does not change the key set. -/
lemma mem_keys_sort_desc (d : Dict) (k : String) :
    k ∈ Dict.keys (sort_desc d) ↔ k ∈ Dict.keys d := by
  simp [Dict.keys, mem_sort_desc]

/-- Sorting does not change `hasKey`. -/
lemma hasKey_sort_desc (d : Dict) (k : String) :
    Dict.hasKey (sort_desc d) k = Dict.hasKey d k := by
  cases hc : Dict.hasKey d k with
  | true =>
    exact (hasKey_iff _ _).mpr ((mem_keys_sort_desc d k).mpr
      ((hasKey_iff d k).mp hc))
  | false =>
    cases hs : Dict.hasKey (sort_desc d) k with
    | false => rfl
    | true =>
      exfalso
      have h1 := (mem_keys_sort_desc d k).mp ((hasKey_iff _ _).mp hs)
      rw [(hasKey_iff d k).mpr h1] at hc
      exact Bool.noConfusion hc

/-- Claim C9: when the fetched cancellations map differs from the stored one
but introduces no new keys, the change check still fires (swapping current
into previous, incrementing the iteration, stamping the time — the returned
snapshot is the one persisted), yet the subsequent e-mail step finds an
empty new-entries difference, sends nothing and returns False. -/
theorem c9_no_new_keys_no_email (s : CancelSnapshot) (fetched : Dict)
    (now cancel_url : String)
    (hne : Dict.eqDict fetched s.current = false)
    (hsub : ∀ k ∈ Dict.keys fetched, k ∈ Dict.keys s.current) :
    (is_cancellations_changed s fetched now).2 = true ∧
    (is_cancellations_changed s fetched now).1.current = fetched ∧
    (is_cancellations_changed s fetched now).1.previous = s.current ∧
    (is_cancellations_changed s fetched now).1.metadata.current_iteration =
      s.metadata.current_iteration + 1 ∧
    (is_cancellations_changed s fetched now).1.metadata.last_change = now ∧
    send_cancel_email_request (is_cancellations_changed s fetched now).1
      cancel_url = none := by
  have hc : (is_cancellations_changed s fetched now).1.current = fetched := by
    simp [is_cancellations_changed, hne]
  have hp : (is_cancellations_changed s fetched now).1.previous = s.current := by
    simp [is_cancellations_changed, hne]
  refine ⟨by simp [is_cancellations_changed, hne], hc, hp,
    by simp [is_cancellations_changed, hne],
    by simp [is_cancellations_changed, hne], ?_⟩
  unfold send_cancel_email_request
  rw [hc, hp]
  have hempty : cancel_new_entries (sort_desc s.current) (sort_desc fetched) =
      [] := by
    unfold cancel_new_entries
    rw [List.filter_eq_nil_iff]
    intro kv hkv
    have h1 : kv ∈ fetched := (mem_sort_desc kv fetched).mp hkv
    have h2 : kv.1 ∈ Dict.keys fetched := List.mem_map.mpr ⟨kv, h1, rfl⟩
    have h4 : Dict.hasKey s.current kv.1 = true :=
      (hasKey_iff _ _).mpr (hsub kv.1 h2)
    have h5 : Dict.hasKey (sort_desc s.current) kv.1 = true := by
      rw [hasKey_sort_desc]
      exact h4
    simp [h5]
  rw [hempty, if_pos (show sort_desc [] = [] from rfl)]

/-- Witness for C9: a fetched map that only drops one entry. -/
theorem c9_no_new_keys_no_email_witness :
    (is_cancellations_changed
      ⟨[("2022-01-02", "b"), ("2022-01-01", "a")], [], ⟨0, "t0"⟩⟩
      [("2022-01-01", "a")] "t1").2 = true ∧
    send_cancel_email_request
      (is_cancellations_changed
        ⟨[("2022-01-02", "b"), ("2022-01-01", "a")], [], ⟨0, "t0"⟩⟩
        [("2022-01-01", "a")] "t1").1 "https://example" = none :=
  ⟨(c9_no_new_keys_no_email
      ⟨[("2022-01-02", "b"), ("2022-01-01", "a")], [], ⟨0, "t0"⟩⟩
      [("2022-01-01", "a")] "t1" "https://example" (by decide) (by decide)).1,
   (c9_no_new_keys_no_email
      ⟨[("2022-01-02", "b"), ("2022-01-01", "a")], [], ⟨0, "t0"⟩⟩
      [("2022-01-01", "a")] "t1" "https://example" (by decide)
      (by decide)).2.2.2.2.2⟩

/- ---------------------------------------------------------------------------
C7: the document loaders never raise on a key-set mismatch; they replace the
document with the defaults, re-persist them and return them
(src/wa_color/disk/private/_utils.py, LoadByType).
--------------------------------------------------------------------------- -/

/-- A JSON-like value as persisted by the program. -/
inductive PVal where
  | s : String → PVal
  | i : Int → PVal
  | b : Bool → PVal
  | arr : List PVal → PVal
  | obj : List (String × PVal) → PVal

/-- Top-level key sets compare as sets (Python `dict.keys()` views). -/
def keySetEqB (a b : List String) : Bool :=
  a.all (b.contains ·) && b.all (a.contains ·)

/-- Does the loaded document's top-level key set match the template's?
`False` also when the loaded document is not an object (Python `.keys()`
raises there, which the loader treats the same way). -/
def key_set_matches (doc tmpl : PVal) : Bool :=
  match doc, tmpl with
  | .obj kvs, .obj dkvs => keySetEqB (dkvs.map Prod.fst) (kvs.map Prod.fst)
  | _, _ => false

/-- `_templates.config()`. -/
def template_config : PVal :=
  .obj [
    ("TARGET", .obj [("group_pattern", .s "^1.*LMT")]),
    ("URL", .obj [
      ("cancel", .s "https://wa.amu.edu.pl/wa/Nieobecnosci_WA/"),
      ("plan_base", .s "https://wa.amu.edu.pl/timetables/"),
      ("plan", .s "https://wa.amu.edu.pl/timetables/zima_2022_2023/groups/index.html")]),
    ("RUNTIME", .obj [
      ("loop_time_in_seconds", .i 0),
      ("send_email_plan", .b true),
      ("send_email_cancel", .b true)])]

/-- `_templates.secret()`. -/
def template_secret : PVal :=
  .obj [
    ("email_sender", .obj [
      ("username", .s "name.surname@example.mail.com"),
      ("password", .s "123"),
      ("port", .i 465),
      ("server", .s "example.mail.com")]),
    ("email_receivers", .arr [.s "name.surname@mail.com"])]

/-- `base_week` of `_templates.plan()`, as a `PVal`. -/
def template_base_week : PVal :=
  .obj [
    ("time", .arr [.s "08:00", .s "09:45", .s "11:30", .s "13:15",
      .s "15:00", .s "16:45", .s "18:30"]),
    ("monday", .arr (List.replicate 7 (.s "null"))),
    ("tuesday", .arr (List.replicate 7 (.s "null"))),
    ("wednesday", .arr (List.replicate 7 (.s "null"))),
    ("thursday", .arr (List.replicate 7 (.s "null"))),
    ("friday", .arr (List.replicate 7 (.s "null")))]

/-- `_templates.plan()`. -/
def template_plan : PVal :=
  .obj [
    ("current", template_base_week),
    ("previous", template_base_week),
    ("metadata", .obj [
      ("current_iteration", .i 0),
      ("current_color", .s "null"),
      ("current_link", .s "null"),
      ("previous_colors", .obj []),
      ("previous_links", .obj []),
      ("last_change_color", .s "1970-01-01 00:00"),
      ("last_change_table", .s "1970-01-01 00:00"),
      ("last_change_link", .s "1970-01-01 00:00")])]

/-- Zero-padding of `"00:{:02d}".format(i)`. -/
def pad2 (n : Nat) : String :=
  if n < 10 then "0" ++ toString n else toString n

/-- `temp_dates` of `_templates.cancel()`: twenty `"null"` entries. -/
def template_cancel_dates : List (String × PVal) :=
  (List.range 20).map (fun i => ("1970-01-01 00:" ++ pad2 (i + 1), .s "null"))

/-- `_templates.cancel()`. -/
def template_cancel : PVal :=
  .obj [
    ("current", .obj template_cancel_dates),
    ("previous", .obj template_cancel_dates),
    ("metadata", .obj [
      ("current_iteration", .i 0),
      ("last_change", .s "1970-01-01 00:00")])]

/-- The common loader shape of `LoadByType.config/secret/plan/cancel`
(_utils.py:121-300): `stored` is the parsed document (`none` when opening or
parsing raised); on a missing document, a non-object document, or a key-set
mismatch, the loader swallows the error, writes the defaults back and
returns them.  The second component is the write performed (`none`: no
write).  All exceptions are caught inside, so the function is total: nothing
propagates to the caller. -/
def load_document (stored : Option PVal) (dflt : PVal) : PVal × Option PVal :=
  match stored with
  | some doc => if key_set_matches doc dflt then (doc, none) else (dflt, some dflt)
  | none => (dflt, some dflt)

/-- `LoadByType.config` (_utils.py:121-165). -/
def LoadByType.config (stored : Option PVal) : PVal × Option PVal :=
  load_document stored template_config

/-- `LoadByType.secret` (_utils.py:167-210). -/
def LoadByType.secret (stored : Option PVal) : PVal × Option PVal :=
  load_document stored template_secret

/-- `LoadByType.plan` (_utils.py:212-255). -/
def LoadByType.plan (stored : Option PVal) : PVal × Option PVal :=
  load_document stored template_plan

/-- `LoadByType.cancel` (_utils.py:257-300). -/
def LoadByType.cancel (stored : Option PVal) : PVal × Option PVal :=
  load_document stored template_cancel

/-- Claim C7: for each of the four persisted documents, loading a document
whose top-level key set differs from that loader's default template's key
set never raises to the caller (the loaders are total functions): the
loader returns the built-in default content and re-persists it.  Each
loader has its own independently quantified document and hypothesis, so
instantiating the three other documents arbitrarily settles each loader's
universal statement on its own. -/
theorem c7_schema_mismatch_recovers (dc ds dp dl : PVal)
    (h1 : key_set_matches dc template_config = false)
    (h2 : key_set_matches ds template_secret = false)
    (h3 : key_set_matches dp template_plan = false)
    (h4 : key_set_matches dl template_cancel = false) :
    LoadByType.config (some dc) = (template_config, some template_config) ∧
    LoadByType.secret (some ds) = (template_secret, some template_secret) ∧
    LoadByType.plan (some dp) = (template_plan, some template_plan) ∧
    LoadByType.cancel (some dl) = (template_cancel, some template_cancel) := by
  refine ⟨?_, ?_, ?_, ?_⟩ <;>
    simp [LoadByType.config, LoadByType.secret, LoadByType.plan,
      LoadByType.cancel, load_document, h1, h2, h3, h4]

/-- Witness for C7: a {current, previous, metadata}-shaped document (the
shared plan/cancel key set) fed to the config loader, and a one-key
document fed to the plan loader. -/
theorem c7_schema_mismatch_recovers_witness :
    LoadByType.config (some (.obj [("current", .s "x"), ("previous", .s "y"),
      ("metadata", .s "z")])) = (template_config, some template_config) ∧
    LoadByType.plan (some (.obj [("bogus", .s "x")])) =
      (template_plan, some template_plan) :=
  ⟨(c7_schema_mismatch_recovers
      (.obj [("current", .s "x"), ("previous", .s "y"), ("metadata", .s "z")])
      (.obj [("bogus", .s "x")]) (.obj [("bogus", .s "x")])
      (.obj [("bogus", .s "x")])
      (by rfl) (by rfl) (by rfl) (by rfl)).1,
   (c7_schema_mismatch_recovers
      (.obj [("current", .s "x"), ("previous", .s "y"), ("metadata", .s "z")])
      (.obj [("bogus", .s "x")]) (.obj [("bogus", .s "x")])
      (.obj [("bogus", .s "x")])
      (by rfl) (by rfl) (by rfl) (by rfl)).2.2.1⟩

/- ---------------------------------------------------------------------------
C4: the table-change check and the rendered table diff
(mail.py:188-217, Mail.add_plan_table; scrap.py:108-131).
--------------------------------------------------------------------------- -/

/-- The fixed key order of a WeekTable dictionary.  `Mail.add_plan_table`
iterates the (unordered) Python set intersection of the two key sets, which
here is always all six keys; the model fixes the canonical key order, and
the properties proved below are order-independent. -/
def week_day_names : List String :=
  ["time", "monday", "tuesday", "wednesday", "thursday", "friday"]

/-- Row lookup by day key. -/
def WeekTable.getRow (t : WeekTable) (day : String) : List String :=
  if day = "time" then t.time
  else if day = "monday" then t.monday
  else if day = "tuesday" then t.tuesday
  else if day = "wednesday" then t.wednesday
  else if day = "thursday" then t.thursday
  else if day = "friday" then t.friday
  else []

/-- One diff line (mail.py:210-214): newlines inside the two cell texts are
flattened to `"; "`, then `\n* [day @ hour] 'old' --> 'new'` is emitted. -/
def render_cell_line (day hour old_subj new_subj : String) : String :=
  nl ++ "* [" ++ day ++ " @ " ++ hour ++ "] " ++ sq ++
    pyReplace old_subj nl "; " ++ sq ++ " --> " ++ sq ++
    pyReplace new_subj nl "; " ++ sq

/-- The diff lines of one day row:
`zip(new_plan["time"], old_plan[day], new_plan[day])`, keeping the cells
whose text differs (mail.py:204-214). -/
def row_diff (day : String) : List String → List String → List String →
    List String
  | t :: ts, o :: os, n :: ns =>
    (if o ≠ n then [render_cell_line day t o n] else []) ++ row_diff day ts os ns
  | _, _, _ => []

/-- All diff lines of the table e-mail, in the model's canonical day
order. -/
def table_diff_lines (o n : WeekTable) : List String :=
  week_day_names.flatMap (fun d => row_diff d n.time (o.getRow d) (n.getRow d))

/-- `Mail.add_plan_table`'s message: header plus the diff lines. -/
def add_plan_table_msg (o n : WeekTable) (at_time : String) : String :=
  "lesson plan" ++ sq ++ "s table has changed at " ++ sq ++ at_time ++ sq ++
    ", here are the differences:" ++ String.join (table_diff_lines o n)

/-- The (day, slot) pairs at which the two tables hold different cell
text. -/
def differing_pairs (o n : WeekTable) : List (String × Nat) :=
  week_day_names.flatMap (fun d =>
    ((List.range n.time.length).filter (fun idx =>
      decide ((o.getRow d).getD idx "" ≠ (n.getRow d).getD idx ""))).map
      (fun idx => (d, idx)))

/-- The diff line a differing (day, slot) pair is rendered to. -/
def render_pair (o n : WeekTable) (p : String × Nat) : String :=
  render_cell_line p.1 (n.time.getD p.2 "") ((o.getRow p.1).getD p.2 "")
    ((n.getRow p.1).getD p.2 "")

/-- All day rows of a WeekTable have the length of its time row. -/
def week_wf (t : WeekTable) : Prop :=
  t.monday.length = t.time.length ∧ t.tuesday.length = t.time.length ∧
    t.wednesday.length = t.time.length ∧ t.thursday.length = t.time.length ∧
    t.friday.length = t.time.length

/-- A day row's diff lines are exactly the rendered differing slots, when
the three zipped lists have equal length. -/
lemma row_diff_eq (day : String) :
    ∀ (ts os ns : List String), os.length = ts.length → ns.length = ts.length →
    row_diff day ts os ns =
      ((List.range ts.length).filter (fun idx =>
        decide (os.getD idx "" ≠ ns.getD idx ""))).map
        (fun idx => render_cell_line day (ts.getD idx "") (os.getD idx "")
          (ns.getD idx "")) := by
  intro ts
  induction ts with
  | nil =>
    intro os ns _ _
    cases os <;> cases ns <;> simp [row_diff]
  | cons t ts ih =>
    intro os ns h1 h2
    cases os with
    | nil => simp at h1
    | cons o os =>
      cases ns with
      | nil => simp at h2
      | cons n ns =>
        have h1' : os.length = ts.length := by simpa using h1
        have h2' : ns.length = ts.length := by simpa using h2
        show (if o ≠ n then [render_cell_line day t o n] else []) ++
          row_diff day ts os ns = _
        rw [ih os ns h1' h2']
        simp only [List.length_cons]
        rw [List.range_succ_eq_map, List.filter_cons]
        by_cases hcell : o = n
        · rw [if_neg (by simp [hcell]),
            if_neg (by simp [hcell, List.getD_cons_zero])]
          rw [List.filter_map, List.map_map]
          simp only [Function.comp_def, Nat.succ_eq_add_one,
            List.getD_cons_succ, List.nil_append]
        · rw [if_pos hcell, if_pos (by simp [hcell, List.getD_cons_zero])]
          rw [List.filter_map, List.map_cons, List.map_map]
          simp only [Function.comp_def, Nat.succ_eq_add_one,
            List.getD_cons_succ, List.getD_cons_zero, List.singleton_append,
            List.cons_append, List.nil_append]

/-- The differing pairs list names each differing (day, slot) pair exactly
once. -/
lemma differing_pairs_nodup (o n : WeekTable) : (differing_pairs o n).Nodup := by
  unfold differing_pairs
  rw [List.nodup_flatMap]
  constructor
  · intro d _
    refine List.Nodup.map ?_ (List.Nodup.filter _ (List.nodup_range _))
    intro a b hab
    simpa using hab
  · have hnd : week_day_names.Nodup := by decide
    refine hnd.imp ?_
    intro a b hab x hxa hxb
    obtain ⟨i, _, rfl⟩ := List.mem_map.mp hxa
    obtain ⟨j, _, hj⟩ := List.mem_map.mp hxb
    exact hab (congrArg Prod.fst hj).symm

/-- Characterisation of the differing pairs. -/
lemma differing_pairs_mem (o n : WeekTable) (d : String) (idx : Nat) :
    (d, idx) ∈ differing_pairs o n ↔
      d ∈ week_day_names ∧ idx < n.time.length ∧
        (o.getRow d).getD idx "" ≠ (n.getRow d).getD idx "" := by
  unfold differing_pairs
  simp only [List.mem_flatMap, List.mem_map, List.mem_filter, List.mem_range,
    decide_eq_true_eq, Prod.mk.injEq]
  constructor
  · rintro ⟨d2, hd2, i2, ⟨hi2, hne⟩, rfl, rfl⟩
    exact ⟨hd2, hi2, hne⟩
  · rintro ⟨hd, hi, hne⟩
    exact ⟨d, hd, idx, ⟨hi, hne⟩, rfl, rfl⟩

/-- Claim C4: for any two well-formed WeekTables T1 ≠ T2 of the same slot
count, the table-change check fires (storing T2 as current and T1 as
previous), and the rendered diff contains exactly one line per (day, slot)
pair whose cell text differs — no more, no fewer — each line rendered as
`[day @ hour] 'old' --> 'new'` with newlines inside cell text flattened to
`"; "`. -/
theorem c4_table_change_and_diff (o n : WeekTable) (s : PlanSnapshot)
    (now at_time : String)
    (hwo : week_wf o) (hwn : week_wf n) (hlen : o.time.length = n.time.length)
    (hne : o ≠ n) (hcur : s.current = o) :
    (is_table_changed s n now).2 = true ∧
    (is_table_changed s n now).1.current = n ∧
    (is_table_changed s n now).1.previous = o ∧
    table_diff_lines o n = (differing_pairs o n).map (render_pair o n) ∧
    (differing_pairs o n).Nodup ∧
    (∀ d idx, (d, idx) ∈ differing_pairs o n ↔
      d ∈ week_day_names ∧ idx < n.time.length ∧
        (o.getRow d).getD idx "" ≠ (n.getRow d).getD idx "") ∧
    add_plan_table_msg o n at_time =
      "lesson plan" ++ sq ++ "s table has changed at " ++ sq ++ at_time ++
        sq ++ ", here are the differences:" ++
        String.join (table_diff_lines o n) := by
  have hfire : n ≠ s.current := by
    rw [hcur]
    exact fun he => hne he.symm
  have hfire2 : n ≠ o := fun he => hne he.symm
  refine ⟨by simp [is_table_changed, hfire],
    by simp [is_table_changed, hfire],
    by simp [is_table_changed, hcur, hfire2],
    ?_, differing_pairs_nodup o n, differing_pairs_mem o n, rfl⟩
  unfold table_diff_lines differing_pairs
  rw [List.map_flatMap]
  refine List.flatMap_congr ?_
  intro d hd
  simp only [week_day_names, List.mem_cons, List.not_mem_nil, or_false] at hd
  have hrow_o : (o.getRow d).length = n.time.length := by
    rcases hd with rfl | rfl | rfl | rfl | rfl | rfl <;>
      simp [WeekTable.getRow, hlen, hwo.1, hwo.2.1, hwo.2.2.1, hwo.2.2.2.1,
        hwo.2.2.2.2]
  have hrow_n : (n.getRow d).length = n.time.length := by
    rcases hd with rfl | rfl | rfl | rfl | rfl | rfl <;>
      simp [WeekTable.getRow, hwn.1, hwn.2.1, hwn.2.2.1, hwn.2.2.2.1,
        hwn.2.2.2.2]
  rw [row_diff_eq d n.time (o.getRow d) (n.getRow d) hrow_o hrow_n,
    List.map_map]
  rfl

/-- Witness for C4: two one-slot tables differing in the tuesday cell. -/
theorem c4_table_change_and_diff_witness :
    (is_table_changed
      ⟨⟨["08:00"], ["A"], ["B"], ["C"], ["D"], ["E"]⟩,
       ⟨["08:00"], ["A"], ["B"], ["C"], ["D"], ["E"]⟩,
       template_plan_snapshot.metadata⟩
      ⟨["08:00"], ["A"], ["X"], ["C"], ["D"], ["E"]⟩ "t").2 = true ∧
    table_diff_lines ⟨["08:00"], ["A"], ["B"], ["C"], ["D"], ["E"]⟩
        ⟨["08:00"], ["A"], ["X"], ["C"], ["D"], ["E"]⟩ =
      (differing_pairs ⟨["08:00"], ["A"], ["B"], ["C"], ["D"], ["E"]⟩
        ⟨["08:00"], ["A"], ["X"], ["C"], ["D"], ["E"]⟩).map
        (render_pair ⟨["08:00"], ["A"], ["B"], ["C"], ["D"], ["E"]⟩
          ⟨["08:00"], ["A"], ["X"], ["C"], ["D"], ["E"]⟩) :=
  ⟨(c4_table_change_and_diff ⟨["08:00"], ["A"], ["B"], ["C"], ["D"], ["E"]⟩
      ⟨["08:00"], ["A"], ["X"], ["C"], ["D"], ["E"]⟩
      ⟨⟨["08:00"], ["A"], ["B"], ["C"], ["D"], ["E"]⟩,
       ⟨["08:00"], ["A"], ["B"], ["C"], ["D"], ["E"]⟩,
       template_plan_snapshot.metadata⟩ "t" "at"
      ⟨rfl, rfl, rfl, rfl, rfl⟩ ⟨rfl, rfl, rfl, rfl, rfl⟩ rfl
      (by decide) rfl).1,
   (c4_table_change_and_diff ⟨["08:00"], ["A"], ["B"], ["C"], ["D"], ["E"]⟩
      ⟨["08:00"], ["A"], ["X"], ["C"], ["D"], ["E"]⟩
      ⟨⟨["08:00"], ["A"], ["B"], ["C"], ["D"], ["E"]⟩,
       ⟨["08:00"], ["A"], ["B"], ["C"], ["D"], ["E"]⟩,
       template_plan_snapshot.metadata⟩ "t" "at"
      ⟨rfl, rfl, rfl, rfl, rfl⟩ ⟨rfl, rfl, rfl, rfl, rfl⟩ rfl
      (by decide) rfl).2.2.2.1⟩

end WaColor
